import Mathlib

/-!
Shallow embedding of `src/services/chosicApi.ts` (NexTune).

The module has four pieces: a proxy rotator (`tryWithProxy`) over a fixed
list of CORS relay URLs with a module-global `workingProxyIndex`, a
suggestion fetcher (`getSuggestions`) and a playlist fetcher
(`generatePlaylist`) that fall back to static mock tables on any failure,
and an HTML extractor (`parseMusicFromHtml`).

Modelling choices:
* The network is an oracle `String → FetchOutcome` mapping the proxied URL
  (relay prefix ++ encodeURIComponent(target)) to either a thrown error or
  a `Response`.  Request options (method, headers, body) are fixed per call
  site, so the oracle of a call absorbs them.
* The mutable global `workingProxyIndex` is threaded explicitly: each
  operation takes the pre-state and returns the post-state.
* `DOMParser` plus the CSS selector queries are a browser API; a parsed
  document is abstracted as the list of elements matching `.pl-item`, each
  carrying the nullable results of the three sub-queries
  (`.song-title` text, `.artist-name` text, `a[href*="youtube.com"]` href).
* `response.json()` is abstracted as a `JsonOutcome` stored on the
  response: a parse failure, a JSON array (already read as suggestion
  records, as the TS cast does), or a non-array value.
* Thrown JS exceptions become `Except Err`; the try/catch blocks become
  matches on the `Except` value.
-/

set_option autoImplicit false

namespace ChosicApi

/-- Suggestion record: `{ value, label }` from `types/music`. -/
structure Suggestion where
  value : String
  label : String
deriving DecidableEq, Repr

/-- Song record: `{ id, title, artist, youtubeUrl, youtubeId }` from `types/music`. -/
structure Song where
  id : String
  title : String
  artist : String
  youtubeUrl : String
  youtubeId : String
deriving DecidableEq, Repr

/-- Search options: `{ query, type, genre? }` from `types/music`. -/
structure SearchOptions where
  query : String
  type : String
  genre : Option String
deriving DecidableEq, Repr

/-- Errors that flow through the catch blocks: an error thrown by `fetch`,
the `ApiResponseFormatError` class, a `response.json()` rejection, and the
generic `new Error` thrown when every proxy failed. -/
inductive Err where
  | fetchError (info : String)
  | apiResponseFormatError (msg : String)
  | jsonParseError
  | allCorsProxiesFailed
deriving DecidableEq, Repr

/-- Result of `response.json()`: rejection, a JSON array (read as
suggestion records), or a defined non-array value. -/
inductive JsonOutcome where
  | fail
  | arr (xs : List Suggestion)
  | nonArray
deriving DecidableEq, Repr

/-- One element matching `.pl-item`.  Each field is the result of the
corresponding sub-query: `none` when the sub-element is absent, and the
inner option models the nullable `textContent` / `getAttribute` result. -/
structure RawItem where
  titleEl : Option (Option String)
  artistEl : Option (Option String)
  anchorHref : Option (Option String)
deriving DecidableEq, Repr

/-- The parts of a `fetch` `Response` the module reads: `ok`, the
`content-type` header, the JSON body outcome and the parsed DOM of the
text body. -/
structure Response where
  ok : Bool
  contentType : Option String
  jsonResult : JsonOutcome
  items : List RawItem
deriving DecidableEq, Repr

deriving instance DecidableEq for Except

/-- Outcome of one `fetch` call: rejected promise, or a response. -/
inductive FetchOutcome where
  | throws (e : Err)
  | responds (r : Response)
deriving DecidableEq, Repr

/-- The relay oracle: what `fetch(proxiedUrl, options)` does during this
call, as a function of the proxied URL. -/
def Oracle : Type := String → FetchOutcome

/-- CORS_PROXIES constant. -/
def CORS_PROXIES : List String :=
  ["https://api.allorigins.win/raw?url=",
   "https://corsproxy.io/?",
   "https://cors-anywhere.herokuapp.com/",
   "https://api.codetabs.com/v1/proxy?quest="]

/-- CHOSIC_SUGGESTIONS_URL constant. -/
def CHOSIC_SUGGESTIONS_URL : String :=
  "https://www.chosic.com/wp-admin/admin-ajax.php"

/-- CHOSIC_PLAYLIST_URL constant. -/
def CHOSIC_PLAYLIST_URL : String := "https://www.chosic.com/playlist-generator/"

/-- Initial value of the module-global `workingProxyIndex`. -/
def initialWorkingProxyIndex : Nat := 0

/-- Characters `encodeURIComponent` leaves unescaped:
`A-Z a-z 0-9 - _ . ! ~ * ( )` and the apostrophe (code 39). -/
def isUnreservedURIChar (c : Char) : Bool :=
  c.isAlpha || c.isDigit ||
    c ∈ ['-', '_', '.', '!', '~', '*', '(', ')', Char.ofNat 39]

/-- Uppercase hex digit for a value below 16. -/
def hexDigitChar (n : Nat) : Char :=
  if n < 10 then Char.ofNat (48 + n) else Char.ofNat (55 + n)

/-- UTF-8 bytes of a character, as `Nat` values. -/
def utf8Bytes (c : Char) : List Nat :=
  let n := c.toNat
  if n < 128 then [n]
  else if n < 2048 then [192 + n / 64, 128 + n % 64]
  else if n < 65536 then [224 + n / 4096, 128 + (n / 64) % 64, 128 + n % 64]
  else [240 + n / 262144, 128 + (n / 4096) % 64, 128 + (n / 64) % 64, 128 + n % 64]

/-- Percent-encoding of one byte. -/
def percentEncode (b : Nat) : String :=
  "%" ++ String.mk [hexDigitChar (b / 16), hexDigitChar (b % 16)]

/-- JS `encodeURIComponent`. -/
def encodeURIComponent (s : String) : String :=
  String.join <| s.data.map fun c =>
    if isUnreservedURIChar c then String.mk [c]
    else String.join ((utf8Bytes c).map percentEncode)

/-- The proxied URL built for relay index `idx`:
`CORS_PROXIES[idx] ++ encodeURIComponent(url)`. -/
def proxiedUrl (idx : Nat) (url : String) : String :=
  (CORS_PROXIES.getD idx "") ++ encodeURIComponent url

/-- Outcome of attempting delivery through relay candidate `idx`. -/
def attemptAt (oracle : Oracle) (url : String) (idx : Nat) : FetchOutcome :=
  oracle (proxiedUrl idx url)

/-- True when a candidate fails: it throws, or responds with a
non-success status. -/
def failsB : FetchOutcome → Bool
  | .throws _ => true
  | .responds r => !r.ok

/-- The `for (let i = 0; i < CORS_PROXIES.length; i++)` loop of
`tryWithProxy`, over the list of loop-counter values still to run;
`lastError` is the mutable local.  Returns the successful candidate index
with its response, or the final thrown error. -/
def tryLoop (oracle : Oracle) (url : String) (start : Nat) :
    List Nat → Option Err → Except Err (Nat × Response)
  | [], lastError =>
      .error (match lastError with
              | some e => e
              | none => Err.allCorsProxiesFailed)
  | i :: rest, lastError =>
      let idx := (start + i) % CORS_PROXIES.length
      match attemptAt oracle url idx with
      | .throws e => tryLoop oracle url start rest (some e)
      | .responds r =>
          if r.ok then .ok (idx, r)
          else tryLoop oracle url start rest lastError

/-- `tryWithProxy(url, options)`: runs the loop from the remembered index
`wpi`; on success the global becomes the successful index, on failure it
is left unchanged.  Returns (thrown error or response, new global). -/
def tryWithProxy (oracle : Oracle) (url : String) (wpi : Nat) :
    Except Err Response × Nat :=
  match tryLoop oracle url wpi (List.range CORS_PROXIES.length) none with
  | .ok (idx, r) => (.ok r, idx)
  | .error e => (.error e, wpi)

/-- The value of the mutable local `lastError` after a run of the loop
that exhausts all candidates: the last thrown error in iteration order. -/
def rotationLastError (oracle : Oracle) (url : String) (start : Nat) :
    Option Err :=
  (List.range CORS_PROXIES.length).foldl
    (fun acc i =>
      match attemptAt oracle url ((start + i) % CORS_PROXIES.length) with
      | .throws e => some e
      | .responds _ => acc) none

/-- JS `String.prototype.includes`: `pat` occurs as a substring of `s`. -/
def strIncludes (s pat : String) : Bool :=
  (List.range (s.data.length + 1)).any fun i => pat.data.isPrefixOf (s.data.drop i)

/-- JS `toLowerCase`, character by character (the data here is ASCII, where
this agrees with Unicode simple lowercasing). -/
def jsToLower (s : String) : String :=
  String.mk (s.data.map Char.toLower)

/-- JS `trim`: strip leading and trailing whitespace. -/
def jsTrim (s : String) : String :=
  String.mk (((s.data.dropWhile Char.isWhitespace).reverse.dropWhile
    Char.isWhitespace).reverse)

/-- The pattern `a.toLowerCase().includes(b.toLowerCase())` used by every
fallback filter. -/
def includesCI (s pat : String) : Bool :=
  strIncludes (jsToLower s) (jsToLower pat)

/-- The `mockSuggestions` record, as an association list keyed by type. -/
def mockSuggestions : List (String × List Suggestion) :=
  [("song",
    [⟨"Bohemian Rhapsody", "Bohemian Rhapsody - Queen"⟩,
     ⟨"Imagine", "Imagine - John Lennon"⟩,
     ⟨"Hotel California", "Hotel California - Eagles"⟩,
     ⟨"Stairway to Heaven", "Stairway to Heaven - Led Zeppelin"⟩,
     ⟨"Sweet Child O Mine", "Sweet Child O Mine - Guns N Roses"⟩,
     ⟨"Yesterday", "Yesterday - The Beatles"⟩,
     ⟨"Smells Like Teen Spirit", "Smells Like Teen Spirit - Nirvana"⟩,
     ⟨"Billie Jean", "Billie Jean - Michael Jackson"⟩]),
   ("artist",
    [⟨"The Beatles", "The Beatles"⟩,
     ⟨"Queen", "Queen"⟩,
     ⟨"Led Zeppelin", "Led Zeppelin"⟩,
     ⟨"Pink Floyd", "Pink Floyd"⟩,
     ⟨"The Rolling Stones", "The Rolling Stones"⟩,
     ⟨"Michael Jackson", "Michael Jackson"⟩,
     ⟨"Nirvana", "Nirvana"⟩,
     ⟨"Bob Dylan", "Bob Dylan"⟩])]

/-- The `mockPlaylistData` constant. -/
def mockPlaylistData : List Song :=
  [⟨"1", "Bohemian Rhapsody", "Queen",
    "https://www.youtube.com/watch?v=fJ9rUzIMcZQ", "fJ9rUzIMcZQ"⟩,
   ⟨"2", "Imagine", "John Lennon",
    "https://www.youtube.com/watch?v=YkgkThdzX-8", "YkgkThdzX-8"⟩,
   ⟨"3", "Hotel California", "Eagles",
    "https://www.youtube.com/watch?v=BciS5krYL80", "BciS5krYL80"⟩,
   ⟨"4", "Stairway to Heaven", "Led Zeppelin",
    "https://www.youtube.com/watch?v=QkF3oxziUI4", "QkF3oxziUI4"⟩,
   ⟨"5", "Sweet Child O Mine", "Guns N Roses",
    "https://www.youtube.com/watch?v=1w7OgIMMRc4", "1w7OgIMMRc4"⟩,
   ⟨"6", "Yesterday", "The Beatles",
    "https://www.youtube.com/watch?v=NrgmdOz227I", "NrgmdOz227I"⟩,
   ⟨"7", "Smells Like Teen Spirit", "Nirvana",
    "https://www.youtube.com/watch?v=hTWKbfoikeg", "hTWKbfoikeg"⟩,
   ⟨"8", "Billie Jean", "Michael Jackson",
    "https://www.youtube.com/watch?v=Zi_XLOBDo_Y", "Zi_XLOBDo_Y"⟩]

/-- The catch block of `getSuggestions`: `mockSuggestions[type] || []`
filtered by case-insensitive substring match of the query against value
or label. -/
def fallbackSuggestions (query ty : String) : List Suggestion :=
  ((mockSuggestions.lookup ty).getD []).filter fun s =>
    includesCI s.value query || includesCI s.label query

/-- The catch block of `generatePlaylist`: `mockPlaylistData` filtered by
case-insensitive substring match of the query against title or artist,
then `slice(0, 10)`. -/
def fallbackSongs (query : String) : List Song :=
  (mockPlaylistData.filter fun song =>
    includesCI song.title query || includesCI song.artist query).take 10

/-- `isValidJsonResponse`: the content-type header is present and contains
`application/json`. -/
def isValidJsonResponse (r : Response) : Bool :=
  match r.contentType with
  | none => false
  | some ct => strIncludes ct "application/json"

/-- The character class `[^&\n?#]` of the video-id capture group. -/
def youtubeIdCharOK (c : Char) : Bool :=
  !(c = '&' || c = '\n' || c = '?' || c = '#')

/-- The capture group `([^&\n?#]+)`: one or more allowed characters,
greedy; fails on zero characters. -/
def captureYoutubeId (s : List Char) : Option String :=
  let tk := s.takeWhile youtubeIdCharOK
  if tk.isEmpty then none else some (String.mk tk)

/-- The regex alternation tried at one scan position: the prefix
`youtube.com/watch?v=` first, then `youtu.be/`, each followed by the
capture group. -/
def youtubeIdAt (s : List Char) : Option String :=
  match (if "youtube.com/watch?v=".data.isPrefixOf s then
           captureYoutubeId (s.drop "youtube.com/watch?v=".data.length)
         else none) with
  | some v => some v
  | none =>
      if "youtu.be/".data.isPrefixOf s then
        captureYoutubeId (s.drop "youtu.be/".data.length)
      else none

/-- Left-to-right scan of
`url.match(/(?:youtube\.com\/watch\?v=|youtu\.be\/)([^&\n?#]+)/)`:
the capture of the leftmost position where the pattern matches. -/
def matchYoutubeId : List Char → Option String
  | [] => none
  | c :: rest =>
      match youtubeIdAt (c :: rest) with
      | some v => some v
      | none => matchYoutubeId rest

/-- `youtubeIdMatch ? youtubeIdMatch[1] : ''`. -/
def extractYoutubeId (url : String) : String :=
  (matchYoutubeId url.data).getD ""

/-- The body of the `forEach` in `parseMusicFromHtml`, for the matched
item at position `index`: requires all three sub-elements, trims the
nullable texts, extracts the video id, and emits only when title, artist
and id are non-empty. -/
def parseItem (index : Nat) (item : RawItem) : Option Song :=
  match item.titleEl, item.artistEl, item.anchorHref with
  | some titleText, some artistText, some hrefAttr =>
      let title := (titleText.map jsTrim).getD ""
      let artist := (artistText.map jsTrim).getD ""
      let youtubeUrl := hrefAttr.getD ""
      let youtubeId := extractYoutubeId youtubeUrl
      if !title.isEmpty && !artist.isEmpty && !youtubeId.isEmpty then
        some ⟨toString index ++ "-" ++ youtubeId, title, artist,
              youtubeUrl, youtubeId⟩
      else none
  | _, _, _ => none

/-- `parseMusicFromHtml` on the abstracted DOM: the `forEach` over all
elements matching `.pl-item`, with `index` the position among matched
items. -/
def parseMusicFromHtml (items : List RawItem) : List Song :=
  items.enum.filterMap fun p => parseItem p.fst p.snd

/-- The `try` block of `getSuggestions` (everything after the length
guard): POST through the rotator, content-type check, JSON parse,
array check.  Thrown errors are the `Except.error` cases; the second
component is the global proxy index after the block. -/
def getSuggestionsTry (oracle : Oracle) (wpi : Nat) :
    Except Err (List Suggestion) × Nat :=
  match tryWithProxy oracle CHOSIC_SUGGESTIONS_URL wpi with
  | (.error e, s) => (.error e, s)
  | (.ok resp, s) =>
      if !isValidJsonResponse resp then
        (.error (.apiResponseFormatError
          "API returned HTML instead of JSON. The service may be unavailable."), s)
      else
        match resp.jsonResult with
        | .fail => (.error .jsonParseError, s)
        | .arr xs => (.ok xs, s)
        | .nonArray => (.ok [], s)

/-- `getSuggestions(query, type)`: short-query guard, then the try block
with its catch converting any error into the filtered mock table. -/
def getSuggestions (oracle : Oracle) (wpi : Nat) (query ty : String) :
    List Suggestion × Nat :=
  if query.length < 2 then ([], wpi)
  else
    match getSuggestionsTry oracle wpi with
    | (.ok xs, s) => (xs, s)
    | (.error _, s) => (fallbackSuggestions query ty, s)

/-- URL construction of `generatePlaylist`. -/
def buildPlaylistUrl (options : SearchOptions) : String :=
  if options.type = "genre" ∨ options.type = "category" then
    CHOSIC_PLAYLIST_URL ++ "?genre=" ++
      encodeURIComponent (match options.genre with
                          | some g => if g = "" then options.query else g
                          | none => options.query)
  else
    CHOSIC_PLAYLIST_URL ++ "?q=" ++ encodeURIComponent options.query ++
      "&type=" ++ options.type

/-- The `try` block of `generatePlaylist`: build the URL, GET through the
rotator, extract songs from the HTML body, and treat an empty extraction
as an `ApiResponseFormatError`. -/
def generatePlaylistTry (oracle : Oracle) (wpi : Nat)
    (options : SearchOptions) : Except Err (List Song) × Nat :=
  match tryWithProxy oracle (buildPlaylistUrl options) wpi with
  | (.error e, s) => (.error e, s)
  | (.ok resp, s) =>
      let songs := parseMusicFromHtml resp.items
      if songs.length = 0 then
        (.error (.apiResponseFormatError "No songs found in API response"), s)
      else (.ok songs, s)

/-- `generatePlaylist(options)`: the try block with its catch converting
any error into the filtered, 10-capped mock playlist. -/
def generatePlaylist (oracle : Oracle) (wpi : Nat)
    (options : SearchOptions) : List Song × Nat :=
  match generatePlaylistTry oracle wpi options with
  | (.ok songs, s) => (songs, s)
  | (.error _, s) => (fallbackSongs options.query, s)

/-! Helper lemmas about the rotation loop. -/

theorem tryLoop_allFail (oracle : Oracle) (url : String) (start : Nat)
    (hfail : ∀ j, j < CORS_PROXIES.length →
      failsB (attemptAt oracle url j) = true) :
    ∀ (l : List Nat) (acc : Option Err),
      tryLoop oracle url start l acc =
        .error ((l.foldl
          (fun acc i =>
            match attemptAt oracle url ((start + i) % CORS_PROXIES.length) with
            | .throws e => some e
            | .responds _ => acc) acc).getD Err.allCorsProxiesFailed) := by
  intro l
  induction l with
  | nil => intro acc; cases acc <;> rfl
  | cons i rest ih =>
      intro acc
      have hlt : (start + i) % CORS_PROXIES.length < CORS_PROXIES.length :=
        Nat.mod_lt _ (by decide)
      have hj := hfail _ hlt
      cases hA : attemptAt oracle url ((start + i) % CORS_PROXIES.length) with
      | throws e => simp [tryLoop, hA, ih]
      | responds r =>
          have hok : r.ok = false := by simpa [failsB, hA] using hj
          simp [tryLoop, hA, hok, ih]

theorem tryLoop_ok_lt (oracle : Oracle) (url : String) (start : Nat) :
    ∀ (l : List Nat) (acc : Option Err) (idx : Nat) (r : Response),
      tryLoop oracle url start l acc = .ok (idx, r) →
      idx < CORS_PROXIES.length := by
  intro l
  induction l with
  | nil => intro acc idx r h; cases acc <;> simp [tryLoop] at h
  | cons i rest ih =>
      intro acc idx r h
      simp only [tryLoop] at h
      cases hA : attemptAt oracle url ((start + i) % CORS_PROXIES.length) with
      | throws e =>
          rw [hA] at h
          exact ih _ _ _ h
      | responds r0 =>
          rw [hA] at h
          by_cases hok : r0.ok
          · simp [hok] at h
            obtain ⟨h1, _⟩ := h
            subst h1
            exact Nat.mod_lt _ (by decide)
          · simp [hok] at h
            exact ih _ _ _ h

/-- Claim C3.  The rotator tries candidates in rotation order from the
remembered start index; the first success is returned and its index
recorded.  In particular, for every start index `s` below the list
length, if candidate `s` fails (throws or non-success status) and
candidate `(s+1) % length` responds with a success status, then the call
returns that response and the new rotation-start index is
`(s+1) % length`. -/
theorem tryWithProxy_rotation_advance :
    ∀ (oracle : Oracle) (url : String) (s : Nat) (r : Response),
      s < CORS_PROXIES.length →
      failsB (attemptAt oracle url s) = true →
      attemptAt oracle url ((s + 1) % CORS_PROXIES.length) = .responds r →
      r.ok = true →
      tryWithProxy oracle url s = (.ok r, (s + 1) % CORS_PROXIES.length) := by
  intro oracle url s r hs h1 h2 hok
  have hrange : List.range CORS_PROXIES.length = [0, 1, 2, 3] := rfl
  unfold tryWithProxy
  rw [hrange]
  cases hA : attemptAt oracle url s with
  | throws e =>
      have hA0 : attemptAt oracle url (s % CORS_PROXIES.length) =
          .throws e := by
        rwa [Nat.mod_eq_of_lt hs]
      simp [tryLoop, hA0, h2, hok]
  | responds r0 =>
      have h0 : r0.ok = false := by simpa [failsB, hA] using h1
      have hA0 : attemptAt oracle url (s % CORS_PROXIES.length) =
          .responds r0 := by
        rwa [Nat.mod_eq_of_lt hs]
      simp [tryLoop, hA0, h0, h2, hok]

/-- Shared concrete oracle on which every relay attempt rejects. -/
def oracleAllFail : Oracle := fun _ => .throws (.fetchError "network error")

/-- Shared concrete success response carrying a JSON array body. -/
def respOkJson : Response := ⟨true, some "application/json", .arr [], []⟩

/-- Concrete oracle: the first relay rejects, every other one succeeds. -/
def oracleFirstDown : Oracle := fun u =>
  if u = proxiedUrl 0 CHOSIC_SUGGESTIONS_URL then
    .throws (.fetchError "connection refused")
  else .responds respOkJson

/-- Witness for C3 at a concrete oracle: candidate 0 fails, candidate 1
succeeds, and the call returns candidate 1 with the rotation index 1. -/
theorem tryWithProxy_rotation_advance_witness :
    tryWithProxy oracleFirstDown CHOSIC_SUGGESTIONS_URL 0 =
      (.ok respOkJson, (0 + 1) % CORS_PROXIES.length) :=
  tryWithProxy_rotation_advance oracleFirstDown CHOSIC_SUGGESTIONS_URL 0
    respOkJson (by decide) (by decide) (by decide) rfl

/-- Claim C4.  When every candidate fails, the call throws: the last
error thrown by a candidate in iteration order if any candidate threw,
else (when no candidate threw, i.e. every candidate responded with a
non-success status, so the recorded last error is still absent) the
generic all-relays-failed error.  The state component stays at the
incoming index. -/
theorem tryWithProxy_all_fail_error :
    ∀ (oracle : Oracle) (url : String) (wpi : Nat),
      ((∀ j, j < CORS_PROXIES.length →
          failsB (attemptAt oracle url j) = true) →
        tryWithProxy oracle url wpi =
          (.error ((rotationLastError oracle url wpi).getD
            Err.allCorsProxiesFailed), wpi)) ∧
      ((∀ j, j < CORS_PROXIES.length →
          ∃ r, attemptAt oracle url j = .responds r) →
        rotationLastError oracle url wpi = none) := by
  intro oracle url wpi
  constructor
  · intro hfail
    have h := tryLoop_allFail oracle url wpi hfail
      (List.range CORS_PROXIES.length) none
    unfold tryWithProxy rotationLastError
    rw [h]
  · intro hresp
    unfold rotationLastError
    generalize List.range CORS_PROXIES.length = l
    induction l with
    | nil => rfl
    | cons i rest ih =>
        obtain ⟨r, hr⟩ := hresp ((wpi + i) % CORS_PROXIES.length)
          (Nat.mod_lt _ (by decide))
        simp only [List.foldl_cons, hr]
        exact ih

/-- Witness for C4: all relays throw, the call returns the last thrown
error and keeps the rotation index. -/
theorem tryWithProxy_all_fail_error_witness :
    tryWithProxy oracleAllFail CHOSIC_SUGGESTIONS_URL 0 =
      (.error ((rotationLastError oracleAllFail CHOSIC_SUGGESTIONS_URL 0).getD
        Err.allCorsProxiesFailed), 0) :=
  (tryWithProxy_all_fail_error oracleAllFail CHOSIC_SUGGESTIONS_URL 0).1
    (by decide)

/-- Claim C10.  The rotation-start global is a valid index initially and
after every call (given a valid index before the call), and a call that
throws leaves the global unchanged: only a successful delivery moves it. -/
theorem workingProxyIndex_invariant :
    initialWorkingProxyIndex < CORS_PROXIES.length ∧
    ∀ (oracle : Oracle) (url : String) (wpi : Nat),
      wpi < CORS_PROXIES.length →
      (tryWithProxy oracle url wpi).snd < CORS_PROXIES.length ∧
      (∀ e, (tryWithProxy oracle url wpi).fst = .error e →
        (tryWithProxy oracle url wpi).snd = wpi) := by
  refine ⟨by decide, ?_⟩
  intro oracle url wpi hw
  unfold tryWithProxy
  cases hL : tryLoop oracle url wpi (List.range CORS_PROXIES.length) none with
  | ok pr =>
      obtain ⟨idx, r⟩ := pr
      refine ⟨?_, ?_⟩
      · simpa using tryLoop_ok_lt oracle url wpi _ _ _ _ hL
      · intro e he
        simp at he
  | error e =>
      exact ⟨by simpa using hw, fun e' _ => rfl⟩

/-- Witness for C10 at a concrete oracle and state. -/
theorem workingProxyIndex_invariant_witness :
    (tryWithProxy oracleAllFail CHOSIC_SUGGESTIONS_URL 0).snd <
      CORS_PROXIES.length :=
  (workingProxyIndex_invariant.2 oracleAllFail CHOSIC_SUGGESTIONS_URL 0
    (by decide)).1

/-- Claim C7.  A query shorter than 2 characters yields the empty list
and the unchanged rotation index at once, for every oracle — in
particular the result does not depend on the oracle, so no network
delivery is attempted. -/
theorem getSuggestions_short_query :
    ∀ (oracle oracle2 : Oracle) (wpi : Nat) (query ty : String),
      query.length < 2 →
      getSuggestions oracle wpi query ty = ([], wpi) ∧
      getSuggestions oracle wpi query ty = getSuggestions oracle2 wpi query ty := by
  intro oracle oracle2 wpi query ty h
  constructor <;> simp [getSuggestions, h]

/-- Witness for C7 at a one-character query. -/
theorem getSuggestions_short_query_witness :
    getSuggestions oracleAllFail 0 "a" "song" = ([], 0) :=
  (getSuggestions_short_query oracleAllFail oracleFirstDown 0 "a" "song"
    (by decide)).1

/-- Claim C1.  The suggestion fetcher is total (its embedding returns a
plain pair, never an error): whenever the try block throws — delivery
failure, non-JSON content type, JSON parse failure — the result is the
static table for the type (empty for an unknown type) filtered by
case-insensitive substring match of the query; and when all relays fail,
the "Queen"/"artist" call returns exactly the static artist entries
containing "queen" case-insensitively, namely the "Queen" entry. -/
theorem getSuggestions_total_fallback :
    ∀ (oracle : Oracle) (wpi : Nat) (query ty : String),
      (∀ e s, 2 ≤ query.length →
        getSuggestionsTry oracle wpi = (.error e, s) →
        getSuggestions oracle wpi query ty = (fallbackSuggestions query ty, s)) ∧
      (ty ≠ "song" → ty ≠ "artist" → fallbackSuggestions query ty = []) ∧
      ((∀ j, j < CORS_PROXIES.length →
          failsB (attemptAt oracle CHOSIC_SUGGESTIONS_URL j) = true) →
        getSuggestions oracle wpi "Queen" "artist" =
          ([⟨"Queen", "Queen"⟩], wpi)) := by
  intro oracle wpi query ty
  refine ⟨?_, ?_, ?_⟩
  · intro e s hlen htry
    have h2 : ¬ query.length < 2 := by omega
    simp [getSuggestions, h2, htry]
  · intro h1 h2
    have e1 : (ty == "song") = false := by simp [h1]
    have e2 : (ty == "artist") = false := by simp [h2]
    simp [fallbackSuggestions, mockSuggestions, List.lookup, e1, e2]
  · intro hfail
    have h := tryLoop_allFail oracle CHOSIC_SUGGESTIONS_URL wpi hfail
      (List.range CORS_PROXIES.length) none
    have hq : ¬ (("Queen" : String).length < 2) := by decide
    have hfb : fallbackSuggestions "Queen" "artist" = [⟨"Queen", "Queen"⟩] := by
      decide
    simp [getSuggestions, getSuggestionsTry, tryWithProxy, h, hq, hfb]

/-- Witness for C1: a concrete all-failing oracle produces the filtered
static artist table. -/
theorem getSuggestions_total_fallback_witness :
    getSuggestions oracleAllFail 0 "Queen" "artist" =
      ([⟨"Queen", "Queen"⟩], 0) :=
  (getSuggestions_total_fallback oracleAllFail 0 "Queen" "artist").2.2
    (by decide)

/-- Claim C9.  On a success response with a non-JSON declared content
type the try block throws the response-format error (so the filtered
fallback table is returned); on a JSON content type whose parsed value is
not an array the call succeeds with the empty list, not the fallback. -/
theorem getSuggestions_content_type_check :
    ∀ (oracle : Oracle) (wpi : Nat) (query ty : String) (resp : Response)
      (s : Nat),
      2 ≤ query.length →
      tryWithProxy oracle CHOSIC_SUGGESTIONS_URL wpi = (.ok resp, s) →
      (isValidJsonResponse resp = false →
        getSuggestionsTry oracle wpi =
          (.error (.apiResponseFormatError
            "API returned HTML instead of JSON. The service may be unavailable."),
           s) ∧
        getSuggestions oracle wpi query ty = (fallbackSuggestions query ty, s)) ∧
      (isValidJsonResponse resp = true → resp.jsonResult = .nonArray →
        getSuggestions oracle wpi query ty = ([], s)) := by
  intro oracle wpi query ty resp s hlen htry
  have h2 : ¬ query.length < 2 := by omega
  constructor
  · intro hct
    have hT : getSuggestionsTry oracle wpi =
        (.error (.apiResponseFormatError
          "API returned HTML instead of JSON. The service may be unavailable."),
         s) := by
      simp [getSuggestionsTry, htry, hct]
    exact ⟨hT, by simp [getSuggestions, h2, hT]⟩
  · intro hct hjson
    have hT : getSuggestionsTry oracle wpi = (.ok [], s) := by
      simp [getSuggestionsTry, htry, hct, hjson]
    simp [getSuggestions, h2, hT]

/-- Shared concrete success response whose declared content type is HTML. -/
def respHtml : Response := ⟨true, some "text/html; charset=UTF-8", .fail, []⟩

/-- Concrete oracle delivering the HTML response on every relay. -/
def oracleHtml : Oracle := fun _ => .responds respHtml

/-- Witness for C9: an HTML content type triggers the fallback path. -/
theorem getSuggestions_content_type_check_witness :
    getSuggestions oracleHtml 0 "Queen" "artist" =
      (fallbackSuggestions "Queen" "artist", 0) :=
  ((getSuggestions_content_type_check oracleHtml 0 "Queen" "artist" respHtml 0
    (by decide) (by decide)).1 (by decide)).2

/-- Claim C2.  The playlist fetcher is total (its embedding returns a
plain pair): any throw in the try block — delivery failure or the
zero-songs response-format error — yields the static song list filtered
by the query and capped at 10; a success response whose extraction gives
zero songs lands on the same fallback; the fallback never exceeds 10
entries; and with all relays failing, the "imagine" search returns
exactly the static "Imagine" entry. -/
theorem generatePlaylist_total_fallback :
    ∀ (oracle : Oracle) (wpi : Nat) (options : SearchOptions),
      (∀ e s, generatePlaylistTry oracle wpi options = (.error e, s) →
        generatePlaylist oracle wpi options = (fallbackSongs options.query, s)) ∧
      (∀ resp s,
        tryWithProxy oracle (buildPlaylistUrl options) wpi = (.ok resp, s) →
        parseMusicFromHtml resp.items = [] →
        generatePlaylist oracle wpi options = (fallbackSongs options.query, s)) ∧
      (∀ q, (fallbackSongs q).length ≤ 10) ∧
      ((∀ j, j < CORS_PROXIES.length →
          failsB (attemptAt oracle
            (buildPlaylistUrl ⟨"imagine", "song", none⟩) j) = true) →
        generatePlaylist oracle wpi ⟨"imagine", "song", none⟩ =
          ([⟨"2", "Imagine", "John Lennon",
             "https://www.youtube.com/watch?v=YkgkThdzX-8", "YkgkThdzX-8"⟩],
           wpi)) := by
  intro oracle wpi options
  refine ⟨?_, ?_, ?_, ?_⟩
  · intro e s htry
    simp [generatePlaylist, htry]
  · intro resp s hok hzero
    have htry : generatePlaylistTry oracle wpi options =
        (.error (.apiResponseFormatError "No songs found in API response"), s) := by
      simp [generatePlaylistTry, hok, hzero]
    simp [generatePlaylist, htry]
  · intro q
    have := List.length_take 10 (mockPlaylistData.filter fun song =>
      includesCI song.title q || includesCI song.artist q)
    simp [fallbackSongs, this]
  · intro hfail
    have h := tryLoop_allFail oracle (buildPlaylistUrl ⟨"imagine", "song", none⟩)
      wpi hfail (List.range CORS_PROXIES.length) none
    have hfb : fallbackSongs "imagine" =
        [⟨"2", "Imagine", "John Lennon",
          "https://www.youtube.com/watch?v=YkgkThdzX-8", "YkgkThdzX-8"⟩] := by
      decide
    simp [generatePlaylist, generatePlaylistTry, tryWithProxy, h, hfb]

/-- Witness for C2: a concrete all-failing oracle produces the filtered,
capped static playlist. -/
theorem generatePlaylist_total_fallback_witness :
    generatePlaylist oracleAllFail 0 ⟨"imagine", "song", none⟩ =
      ([⟨"2", "Imagine", "John Lennon",
         "https://www.youtube.com/watch?v=YkgkThdzX-8", "YkgkThdzX-8"⟩], 0) :=
  (generatePlaylist_total_fallback oracleAllFail 0
    ⟨"imagine", "song", none⟩).2.2.2 (by decide)

/-- Counterexample to claim C8 as stated: with type "genre" and the genre
field present but equal to the empty string, the URL carries the query,
not the genre field. -/
theorem buildPlaylistUrl_empty_genre_counterexample :
    buildPlaylistUrl ⟨"rock", "genre", some ""⟩ ≠
      CHOSIC_PLAYLIST_URL ++ "?genre=" ++ encodeURIComponent "" ∧
    buildPlaylistUrl ⟨"rock", "genre", some ""⟩ =
      CHOSIC_PLAYLIST_URL ++ "?genre=" ++ encodeURIComponent "rock" := by
  exact ⟨by decide, by decide⟩

/-- Claim C8, amended.  For type "genre" or "category" a single genre
parameter is appended whose value is the genre field when present and
non-empty, else the query field; for every other type the query and the
type are appended as separate parameters. -/
theorem buildPlaylistUrl_params :
    ∀ options : SearchOptions,
      ((options.type = "genre" ∨ options.type = "category") →
        (∀ g, options.genre = some g → g ≠ "" →
          buildPlaylistUrl options =
            CHOSIC_PLAYLIST_URL ++ "?genre=" ++ encodeURIComponent g) ∧
        ((options.genre = none ∨ options.genre = some "") →
          buildPlaylistUrl options =
            CHOSIC_PLAYLIST_URL ++ "?genre=" ++
              encodeURIComponent options.query)) ∧
      (options.type ≠ "genre" → options.type ≠ "category" →
        buildPlaylistUrl options =
          CHOSIC_PLAYLIST_URL ++ "?q=" ++ encodeURIComponent options.query ++
            "&type=" ++ options.type) := by
  intro options
  constructor
  · intro htype
    constructor
    · intro g hg hne
      simp [buildPlaylistUrl, htype, hg, hne]
    · intro hg
      rcases hg with h | h <;> simp [buildPlaylistUrl, htype, h]
  · intro h1 h2
    have ht : ¬ (options.type = "genre" ∨ options.type = "category") := by
      simp [h1, h2]
    simp [buildPlaylistUrl, ht]

/-- Witness for the amended C8 at a concrete option record with a
non-empty genre. -/
theorem buildPlaylistUrl_params_witness :
    buildPlaylistUrl ⟨"rock", "genre", some "pop"⟩ =
      CHOSIC_PLAYLIST_URL ++ "?genre=" ++ encodeURIComponent "pop" :=
  ((buildPlaylistUrl_params ⟨"rock", "genre", some "pop"⟩).1 (Or.inl rfl)).1
    "pop" rfl (by decide)

/-! Helper lemmas for the HTML extractor. -/

theorem mk_data_eq (s : String) : String.mk s.data = s := rfl

theorem takeWhile_append_all (p : Char → Bool) :
    ∀ l1 l2 : List Char, (∀ c ∈ l1, p c = true) →
      (match l2 with
       | [] => True
       | c :: _ => p c = false) →
      (l1 ++ l2).takeWhile p = l1 := by
  intro l1
  induction l1 with
  | nil =>
      intro l2 _ h2
      cases l2 with
      | nil => rfl
      | cons c t => simp [List.takeWhile_cons, h2]
  | cons a l1 ih =>
      intro l2 h1 h2
      have ha : p a = true := h1 a (by simp)
      simp [List.takeWhile_cons, ha,
        ih l2 (fun c hc => h1 c (by simp [hc])) h2]

theorem matchYoutubeId_eq_of_here :
    ∀ (l : List Char) (v : String), youtubeIdAt l = some v →
      matchYoutubeId l = some v := by
  intro l v h
  cases l with
  | nil =>
      rw [show youtubeIdAt ([] : List Char) = none from rfl] at h
      exact Option.noConfusion h
  | cons c rest => simp [matchYoutubeId, h]

/-- Claim C6.  The video-id extraction matches `youtube.com/watch?v=` or
`youtu.be/` and captures the identifier up to the next ampersand,
newline, question mark or hash; a URL the pattern does not match yields
the empty identifier, and an item with such a URL is not emitted.  The
concrete anchor target of the claim yields `abc123`. -/
theorem youtubeId_extraction_spec :
    extractYoutubeId "https://www.youtube.com/watch?v=abc123&list=x" =
      "abc123" ∧
    (∀ url : String, matchYoutubeId url.data = none →
      extractYoutubeId url = "") ∧
    (∀ id rest : String, id ≠ "" →
      (∀ c ∈ id.data, youtubeIdCharOK c = true) →
      (match rest.data with
       | [] => True
       | c :: _ => youtubeIdCharOK c = false) →
      extractYoutubeId ("youtube.com/watch?v=" ++ id ++ rest) = id ∧
      extractYoutubeId ("youtu.be/" ++ id ++ rest) = id) ∧
    (∀ (i : Nat) (t a href : Option String),
      matchYoutubeId ((href.getD "").data) = none →
      parseItem i ⟨some t, some a, some href⟩ = none) := by
  refine ⟨by decide, ?_, ?_, ?_⟩
  · intro url h
    simp [extractYoutubeId, h]
  · intro id rest hne hall hstop
    have hid : id.data ≠ [] := by
      intro hd
      exact hne (by rw [← mk_data_eq id, hd])
    have hcap : captureYoutubeId (id.data ++ rest.data) = some id := by
      unfold captureYoutubeId
      rw [takeWhile_append_all youtubeIdCharOK id.data rest.data hall hstop]
      have hemp : id.data.isEmpty = false := by
        cases hd : id.data with
        | nil => exact absurd hd hid
        | cons c t => rfl
      simp [hemp, mk_data_eq]
    constructor
    · have e1 : ("youtube.com/watch?v=" ++ id ++ rest).data =
          "youtube.com/watch?v=".data ++ (id.data ++ rest.data) := rfl
      have hpre1 : "youtube.com/watch?v=".data.isPrefixOf
          ("youtube.com/watch?v=".data ++ (id.data ++ rest.data)) = true :=
        List.isPrefixOf_iff_prefix.mpr (List.prefix_append _ _)
      have hdrop1 : ("youtube.com/watch?v=".data ++
          (id.data ++ rest.data)).drop "youtube.com/watch?v=".data.length =
          id.data ++ rest.data := List.drop_left _ _
      have hat1 : youtubeIdAt (("youtube.com/watch?v=" ++ id ++ rest).data) =
          some id := by
        rw [e1]
        simp [youtubeIdAt, hpre1, hdrop1, hcap]
      rw [extractYoutubeId, matchYoutubeId_eq_of_here _ _ hat1]
      rfl
    · have e2 : ("youtu.be/" ++ id ++ rest).data =
          "youtu.be/".data ++ (id.data ++ rest.data) := rfl
      have hpre2f : "youtube.com/watch?v=".data.isPrefixOf
          ("youtu.be/".data ++ (id.data ++ rest.data)) = false := rfl
      have hpre2 : "youtu.be/".data.isPrefixOf
          ("youtu.be/".data ++ (id.data ++ rest.data)) = true :=
        List.isPrefixOf_iff_prefix.mpr (List.prefix_append _ _)
      have hdrop2 : ("youtu.be/".data ++
          (id.data ++ rest.data)).drop "youtu.be/".data.length =
          id.data ++ rest.data := List.drop_left _ _
      have hat2 : youtubeIdAt (("youtu.be/" ++ id ++ rest).data) =
          some id := by
        rw [e2]
        simp [youtubeIdAt, hpre2f, hpre2, hdrop2, hcap]
      rw [extractYoutubeId, matchYoutubeId_eq_of_here _ _ hat2]
      rfl
  · intro i t a href h
    have hid : extractYoutubeId (href.getD "") = "" := by
      simp [extractYoutubeId, h]
    simp [parseItem, hid, show ("" : String).isEmpty = true from rfl]

/-- Witness for C6: the claim instance with a non-empty identifier
followed by an ampersand terminator, on both URL shapes. -/
theorem youtubeId_extraction_spec_witness :
    extractYoutubeId ("youtube.com/watch?v=" ++ "abc" ++ "&x") = "abc" ∧
    extractYoutubeId ("youtu.be/" ++ "abc" ++ "&x") = "abc" :=
  youtubeId_extraction_spec.2.2.1 "abc" "&x" (by decide) (by decide)
    (by decide)

/-- Claim C5.  Every emitted song comes from some matched item at a
position `i` with id `i ++ "-" ++ videoId`; an item missing any of the
three sub-elements is skipped (emits nothing) while positions keep
counting matched items, so the three-item document with items 0 and 2
complete yields exactly the two records with ids `0-id0` and `2-id2`. -/
theorem parseMusicFromHtml_positional_ids :
    (∀ (items : List RawItem) (s : Song), s ∈ parseMusicFromHtml items →
      ∃ i item, items[i]? = some item ∧ parseItem i item = some s) ∧
    (∀ (i : Nat) (item : RawItem) (s : Song), parseItem i item = some s →
      s.id = toString i ++ "-" ++ s.youtubeId) ∧
    (∀ (i : Nat) (item : RawItem),
      item.titleEl = none ∨ item.artistEl = none ∨ item.anchorHref = none →
      parseItem i item = none) ∧
    parseMusicFromHtml
        [⟨some (some "Song A"), some (some "Artist A"),
          some (some "https://www.youtube.com/watch?v=id0")⟩,
         ⟨some (some "Song B"), none,
          some (some "https://www.youtube.com/watch?v=id1")⟩,
         ⟨some (some "Song C"), some (some "Artist C"),
          some (some "https://youtu.be/id2")⟩] =
      [⟨"0-id0", "Song A", "Artist A",
        "https://www.youtube.com/watch?v=id0", "id0"⟩,
       ⟨"2-id2", "Song C", "Artist C", "https://youtu.be/id2", "id2"⟩] := by
  refine ⟨?_, ?_, ?_, by decide⟩
  · intro items s hs
    simp only [parseMusicFromHtml] at hs
    obtain ⟨⟨i, item⟩, hmem, hf⟩ := List.mem_filterMap.mp hs
    exact ⟨i, item,
      by simpa using List.mk_mem_enum_iff_getElem?.mp hmem, hf⟩
  · intro i item s h
    rcases item with ⟨t, a, hrefA⟩
    cases t with
    | none => simp [parseItem] at h
    | some tt =>
        cases a with
        | none => simp [parseItem] at h
        | some aa =>
            cases hrefA with
            | none => simp [parseItem] at h
            | some hh =>
                simp only [parseItem] at h
                split at h
                · injection h with h2
                  subst h2
                  rfl
                · exact Option.noConfusion h
  · intro i item hnone
    rcases item with ⟨t, a, hrefA⟩
    rcases hnone with h | h | h
    · subst h; cases a <;> cases hrefA <;> simp [parseItem]
    · subst h; cases t <;> cases hrefA <;> simp [parseItem]
    · subst h; cases t <;> cases a <;> simp [parseItem]

/-- Witness for C5: the id-format conjunct at a concrete matched item at
position 5. -/
theorem parseMusicFromHtml_positional_ids_witness :
    (⟨"5-abc", "T", "A", "https://youtu.be/abc", "abc"⟩ : Song).id =
      toString 5 ++ "-" ++
        (⟨"5-abc", "T", "A", "https://youtu.be/abc", "abc"⟩ : Song).youtubeId :=
  parseMusicFromHtml_positional_ids.2.1 5
    ⟨some (some "T"), some (some "A"), some (some "https://youtu.be/abc")⟩
    ⟨"5-abc", "T", "A", "https://youtu.be/abc", "abc"⟩ (by decide)

end ChosicApi
